import Mathlib

/-!
Shallow embedding of the presence-based intrusion alarm implemented in
`src/unnamed/part_000` (near-duplicate: `src/Auto_alert/device_input/1/script.js`).
The embedding follows `part_000`, the fuller of the two variants; `script.js`
differs only by omitting the alert overlay, the audio-unlock step and the
listener deduplication.

Numeric values (face-descriptor entries, distances) are modelled with exact
rationals; the 0.58 threshold is the exact rational 58/100.  The host
JavaScript runtime pieces the code relies on (`JSON.parse`, truthiness of the
`||` operator, property reads that throw on absent structure) are modelled
faithfully to their ECMAScript semantics at the JSON-value level.
-/

namespace AutoAlert

/-- A face descriptor: the fixed-length numeric vector produced by the external
recognition engine for one detected face. -/
abbrev Descriptor := List ℚ

/-- Shape of the record persisted under the `registeredFaces` storage key:
two sequences of descriptors, one per mask state. -/
structure StoredFaces where
  no_mask : List Descriptor
  with_mask : List Descriptor
deriving Repr, DecidableEq

/-- The default store used by the code when nothing (truthy) is stored:
both sub-sequences empty. -/
def emptyStored : StoredFaces := ⟨[], []⟩

/-! JSON value model and a model of the host JSON.parse (fuel-based, total). -/

/-- A parsed JSON value. -/
inductive Json where
  | null : Json
  | bool (b : Bool) : Json
  | num (q : ℚ) : Json
  | str (s : String) : Json
  | arr (elems : List Json) : Json
  | obj (fields : List (String × Json)) : Json

/-- Left brace character, by code point. -/
def lbraceChar : Char := Char.ofNat 123

/-- Right brace character, by code point. -/
def rbraceChar : Char := Char.ofNat 125

/-- Double-quote character, by code point. -/
def quoteChar : Char := Char.ofNat 34

/-- Backslash character, by code point. -/
def backslashChar : Char := Char.ofNat 92

/-- JSON insignificant whitespace. -/
def isJsonWs (c : Char) : Bool :=
  c == ' ' || c.toNat == 10 || c.toNat == 13 || c.toNat == 9

/-- Drop leading JSON whitespace. -/
def skipWs : List Char → List Char
  | [] => []
  | c :: cs => if isJsonWs c then skipWs cs else c :: cs

/-- Value of a run of decimal digits, most significant first. -/
def digitsVal (acc : Nat) : List Char → Nat
  | [] => acc
  | c :: cs => digitsVal (acc * 10 + (c.toNat - 48)) cs

/-- Read a nonempty run of digits; returns value, digit count and the rest. -/
def parseDigits (cs : List Char) : Except String (Nat × Nat × List Char) :=
  let ds := cs.takeWhile Char.isDigit
  let rest := cs.dropWhile Char.isDigit
  if ds.isEmpty then .error "SyntaxError: expected digits"
  else .ok (digitsVal 0 ds, ds.length, rest)

/-- Read an optional exponent part, returning the scale factor it denotes. -/
def parseExponent (cs : List Char) : Except String (ℚ × List Char) :=
  match cs with
  | [] => .ok (1, [])
  | c :: rest =>
    if c == 'e' || c == 'E' then
      let signRest : Bool × List Char :=
        match rest with
        | s :: r2 => if s == '-' then (true, r2) else if s == '+' then (false, r2) else (false, rest)
        | [] => (false, rest)
      match parseDigits signRest.2 with
      | .error m => .error m
      | .ok (e, _, rem) =>
        .ok ((if signRest.1 then (1 : ℚ) / 10 ^ e else (10 : ℚ) ^ e), rem)
    else .ok (1, cs)

/-- Apply sign and exponent to a mantissa. -/
def finishNumber (neg : Bool) (mant : ℚ) (cs : List Char) : Except String (ℚ × List Char) :=
  match parseExponent cs with
  | .error m => .error m
  | .ok (scale, rem) =>
    let v := mant * scale
    .ok ((if neg then -v else v), rem)

/-- Read one JSON number token. -/
def parseNumberTok (cs : List Char) : Except String (ℚ × List Char) :=
  let signRest : Bool × List Char :=
    match cs with
    | c :: rest => if c == '-' then (true, rest) else (false, cs)
    | [] => (false, cs)
  match parseDigits signRest.2 with
  | .error m => .error m
  | .ok (ip, _, cs2) =>
    match cs2 with
    | c :: rest =>
      if c == '.' then
        match parseDigits rest with
        | .error m => .error m
        | .ok (fp, fl, cs3) => finishNumber signRest.1 ((ip : ℚ) + (fp : ℚ) / 10 ^ fl) cs3
      else finishNumber signRest.1 (ip : ℚ) cs2
    | [] => finishNumber signRest.1 (ip : ℚ) []

/-- Read the characters of a JSON string literal after its opening quote
(common escape subset; enough for every string this program persists). -/
def parseStringChars : Nat → List Char → Except String (List Char × List Char)
  | 0, _ => .error "SyntaxError: string too long"
  | _ + 1, [] => .error "SyntaxError: unterminated string"
  | fuel + 1, c :: cs =>
    if c == quoteChar then .ok ([], cs)
    else if c == backslashChar then
      match cs with
      | [] => .error "SyntaxError: unterminated escape"
      | e :: cs2 =>
        let dec : Except String Char :=
          if e == quoteChar then .ok quoteChar
          else if e == backslashChar then .ok backslashChar
          else if e == 'n' then .ok (Char.ofNat 10)
          else if e == 't' then .ok (Char.ofNat 9)
          else if e == 'r' then .ok (Char.ofNat 13)
          else if e == '/' then .ok '/'
          else .error "SyntaxError: unsupported escape"
        match dec with
        | .error m => .error m
        | .ok ch =>
          match parseStringChars fuel cs2 with
          | .error m => .error m
          | .ok (rest, rem) => .ok (ch :: rest, rem)
    else
      match parseStringChars fuel cs with
      | .error m => .error m
      | .ok (rest, rem) => .ok (c :: rest, rem)

mutual

/-- Read one JSON value (fuel bounds recursion depth and item count). -/
def parseVal : Nat → List Char → Except String (Json × List Char)
  | 0, _ => .error "SyntaxError: input too deep"
  | fuel + 1, cs =>
    match skipWs cs with
    | [] => .error "SyntaxError: unexpected end of JSON input"
    | c :: rest =>
      if c == 'n' then
        match rest with
        | 'u' :: 'l' :: 'l' :: rem => .ok (Json.null, rem)
        | _ => .error "SyntaxError: invalid literal"
      else if c == 't' then
        match rest with
        | 'r' :: 'u' :: 'e' :: rem => .ok (Json.bool true, rem)
        | _ => .error "SyntaxError: invalid literal"
      else if c == 'f' then
        match rest with
        | 'a' :: 'l' :: 's' :: 'e' :: rem => .ok (Json.bool false, rem)
        | _ => .error "SyntaxError: invalid literal"
      else if c == quoteChar then
        match parseStringChars (rest.length + 1) rest with
        | .error m => .error m
        | .ok (chs, rem) => .ok (Json.str (String.mk chs), rem)
      else if c == '[' then
        match skipWs rest with
        | ']' :: rem => .ok (Json.arr [], rem)
        | cs2 =>
          match parseArrItems fuel cs2 with
          | .error m => .error m
          | .ok (items, rem) => .ok (Json.arr items, rem)
      else if c == lbraceChar then
        match skipWs rest with
        | [] => .error "SyntaxError: unexpected end of JSON input"
        | c2 :: rem =>
          if c2 == rbraceChar then .ok (Json.obj [], rem)
          else
            match parseObjItems fuel (c2 :: rem) with
            | .error m => .error m
            | .ok (fields, rem2) => .ok (Json.obj fields, rem2)
      else if c == '-' || c.isDigit then
        match parseNumberTok (c :: rest) with
        | .error m => .error m
        | .ok (q, rem) => .ok (Json.num q, rem)
      else .error "SyntaxError: unexpected character"

/-- Read the comma-separated items of a nonempty JSON array. -/
def parseArrItems : Nat → List Char → Except String (List Json × List Char)
  | 0, _ => .error "SyntaxError: input too deep"
  | fuel + 1, cs =>
    match parseVal fuel cs with
    | .error m => .error m
    | .ok (v, rem) =>
      match skipWs rem with
      | ',' :: rem2 =>
        match parseArrItems fuel rem2 with
        | .error m => .error m
        | .ok (items, rem3) => .ok (v :: items, rem3)
      | ']' :: rem2 => .ok ([v], rem2)
      | _ => .error "SyntaxError: expected comma or close bracket"

/-- Read the comma-separated members of a nonempty JSON object. -/
def parseObjItems : Nat → List Char → Except String (List (String × Json) × List Char)
  | 0, _ => .error "SyntaxError: input too deep"
  | fuel + 1, cs =>
    match skipWs cs with
    | [] => .error "SyntaxError: unexpected end of JSON input"
    | c :: rest =>
      if c == quoteChar then
        match parseStringChars (rest.length + 1) rest with
        | .error m => .error m
        | .ok (kchs, rem) =>
          match skipWs rem with
          | ':' :: rem2 =>
            match parseVal fuel rem2 with
            | .error m => .error m
            | .ok (v, rem3) =>
              match skipWs rem3 with
              | [] => .error "SyntaxError: unexpected end of JSON input"
              | ',' :: rem4 =>
                match parseObjItems fuel rem4 with
                | .error m => .error m
                | .ok (fields, rem5) => .ok ((String.mk kchs, v) :: fields, rem5)
              | c2 :: rem4 =>
                if c2 == rbraceChar then .ok ([(String.mk kchs, v)], rem4)
                else .error "SyntaxError: expected comma or close brace"
          | _ => .error "SyntaxError: expected colon"
      else .error "SyntaxError: expected string key"

end

/-- Model of the host JSON.parse: parse one value, insist on no trailing
content, report malformed input as an error (a thrown SyntaxError in JS). -/
def jsonParse (s : String) : Except String Json :=
  match parseVal (2 * s.length + 2) s.toList with
  | .error m => .error m
  | .ok (v, rem) =>
    if (skipWs rem).isEmpty then .ok v
    else .error "SyntaxError: unexpected trailing characters"

/-- JavaScript falsiness of a parsed JSON value (drives the default in the
idiom JSON.parse(x) followed by the logical-or with the empty store). -/
def jsFalsy : Json → Bool
  | Json.null => true
  | Json.bool b => !b
  | Json.num q => if q = 0 then true else false
  | Json.str s => s.isEmpty
  | Json.arr _ => false
  | Json.obj _ => false

/-- Property read on a parsed value as the code performs it: reading a field
of a non-object, or using an absent field, throws a TypeError in JS. -/
def getField (v : Json) (key : String) : Except String Json :=
  match v with
  | Json.obj fields =>
    match fields.lookup key with
    | some x => .ok x
    | none => .error ("TypeError: cannot use field " ++ key)
  | _ => .error ("TypeError: cannot use field " ++ key)

/-- Expect a number. -/
def asNumQ : Json → Except String ℚ
  | Json.num q => .ok q
  | _ => .error "TypeError: expected number"

/-- Expect an array. -/
def asArrJ : Json → Except String (List Json)
  | Json.arr xs => .ok xs
  | _ => .error "TypeError: expected array"

/-- Read one stored embedding back into a descriptor (the Float32Array
reconstruction, value-preserving in this model). -/
def decodeNums : List Json → Except String (List ℚ)
  | [] => .ok []
  | x :: xs =>
    match asNumQ x, decodeNums xs with
    | .ok q, .ok rest => .ok (q :: rest)
    | .error m, _ => .error m
    | _, .error m => .error m

/-- Read one stored embedding entry. -/
def decodeEmbedding (v : Json) : Except String Descriptor :=
  match asArrJ v with
  | .error m => .error m
  | .ok xs => decodeNums xs

/-- Read a stored list of embeddings. -/
def decodeEmbList : List Json → Except String (List Descriptor)
  | [] => .ok []
  | x :: xs =>
    match decodeEmbedding x, decodeEmbList xs with
    | .ok d, .ok rest => .ok (d :: rest)
    | .error m, _ => .error m
    | _, .error m => .error m

/-- Reads the two mask-state sub-sequences out of a parsed value, exactly the
field accesses loadFaceMatcher and registerFace perform on the parse result. -/
def decodeStored (v : Json) : Except String StoredFaces :=
  match getField v "no_mask", getField v "with_mask" with
  | .ok nm, .ok wm =>
    match asArrJ nm, asArrJ wm with
    | .ok nmA, .ok wmA =>
      match decodeEmbList nmA, decodeEmbList wmA with
      | .ok nmL, .ok wmL => .ok ⟨nmL, wmL⟩
      | .error m, _ => .error m
      | _, .error m => .error m
    | .error m, _ => .error m
    | _, .error m => .error m
  | .error m, _ => .error m
  | _, .error m => .error m

/-- The defaulting step: a falsy parse result is replaced by the empty store
(the logical-or in the source), a truthy one is read structurally. -/
def loadFromJson (v : Json) : Except String StoredFaces :=
  if jsFalsy v then .ok emptyStored else decodeStored v

/-- The parse step applied to the raw persisted value: a missing value is the
JS null, which JSON.parse coerces to the string null and parses successfully. -/
def loadStoredRaw : Option String → Except String Json
  | none => jsonParse "null"
  | some s => jsonParse s

/-- The whole load path of the enrollment store, as in loadFaceMatcher line 78
and registerFace line 61 of part_000: parse the raw persisted value, default a
falsy result to the empty store, then read the two sub-sequences.  An error
anywhere is an uncaught JS exception propagating to the caller. -/
def loadStored (raw : Option String) : Except String StoredFaces :=
  match loadStoredRaw raw with
  | .error m => .error m
  | .ok v => loadFromJson v

/-- JSON.stringify of the store at the JSON-value level: the object the code
serializes when it persists the store in registerFace line 71. -/
def encodeStored (s : StoredFaces) : Json :=
  Json.obj
    [("no_mask", Json.arr (s.no_mask.map (fun d => Json.arr (d.map Json.num)))),
     ("with_mask", Json.arr (s.with_mask.map (fun d => Json.arr (d.map Json.num))))]

/-! Matcher construction (loadFaceMatcher lines 77 to 94 of part_000). -/

/-- A best-match result as returned by the consumed matcher contract:
a class label string and a distance. -/
structure FaceMatch where
  label : String
  distance : ℚ
deriving Repr, DecidableEq

/-- The compiled face matcher: the labeled classes and threshold the code
constructs it from, plus the engine-provided findBestMatch behaviour (the
matching metric itself is external to this repository). -/
structure Matcher where
  classes : List (String × List Descriptor)
  threshold : ℚ
  findBestMatch : Descriptor → FaceMatch

/-- The descriptors list built in loadFaceMatcher: one labeled class per
non-empty mask-state sub-sequence. -/
def matcherClassesOf (stored : StoredFaces) : List (String × List Descriptor) :=
  (if stored.no_mask.length > 0 then [("owner_no_mask", stored.no_mask)] else [])
    ++ (if stored.with_mask.length > 0 then [("owner_mask", stored.with_mask)] else [])

/-- The tail of loadFaceMatcher: a matcher with threshold 0.58 when at least
one class exists, otherwise null.  The engine behaviour of the compiled
object is supplied as a parameter. -/
def faceMatcherOf (stored : StoredFaces) (engine : Descriptor → FaceMatch) : Option Matcher :=
  let descriptors := matcherClassesOf stored
  if descriptors.length > 0 then some ⟨descriptors, 0.58, engine⟩ else none

/-! Presence classifier and monitoring cycle (monitorLoop lines 97 to 142). -/

/-- Per-cycle mutable state the loop body reads and writes: the consecutive
no-face counter, the shared ownerAbsent verdict and the status text. -/
structure MonState where
  consecutiveNoFace : Nat
  ownerAbsent : Bool
  statusText : String
deriving Repr, DecidableEq

/-- The no-face threshold constant NO_FACE_THRESHOLD of the source. -/
def NO_FACE_THRESHOLD : Nat := 10

/-- The body of the forEach over detections (lines 116 to 125): accumulate the
two mutable booleans ownerPresent and intruderDetected across detections. -/
def stepDetection (m : Matcher) (acc : Bool × Bool) (det : Descriptor) : Bool × Bool :=
  let bestMatch := m.findBestMatch det
  if bestMatch.distance < (0.58 : ℚ)
      ∧ (bestMatch.label = "owner_no_mask" ∨ bestMatch.label = "owner_mask") then
    (true, acc.2)
  else if bestMatch.label ≠ "unknown" then
    (acc.1, true)
  else acc

/-- The aggregate ownerPresent and intruderDetected flags for one frame:
both start false; each detection is matched only when a matcher exists. -/
def detectionVerdicts (faceMatcher : Option Matcher) (dets : List Descriptor) : Bool × Bool :=
  dets.foldl
    (fun acc det =>
      match faceMatcher with
      | none => acc
      | some m => stepDetection m acc det)
    (false, false)

/-- One iteration of monitorLoop, with the asynchronous detection result and
the current matcher as inputs.  Returns the loop state after the iteration
(when monitoring is false the body returns immediately). -/
def monitorCycle (faceMatcher : Option Matcher) (monitoring : Bool)
    (dets : List Descriptor) (s : MonState) : MonState :=
  if !monitoring then s
  else
    let consec := if dets.length = 0 then s.consecutiveNoFace + 1 else 0
    let verdicts := if dets.length = 0 then (false, false) else detectionVerdicts faceMatcher dets
    let ownerPresent := verdicts.1
    let intruderDetected := verdicts.2
    let absent0 := !ownerPresent
    if consec ≥ NO_FACE_THRESHOLD then
      { consecutiveNoFace := consec, ownerAbsent := true,
        statusText := "顔が長時間検出されません（カメラ確認）" }
    else if intruderDetected then
      { consecutiveNoFace := consec, ownerAbsent := absent0,
        statusText := "不審者（登録外の顔）検出！" }
    else if ownerPresent then
      { consecutiveNoFace := consec, ownerAbsent := absent0,
        statusText := "オーナー確認中..." }
    else
      { consecutiveNoFace := consec, ownerAbsent := absent0,
        statusText := "オーナー不在" }

/-! Alarm gate (handleInput lines 150 to 172). -/

/-- State read and written by the input handler. -/
structure GateState where
  ownerAbsent : Bool
  isTabVisible : Bool
  statusText : String
  overlayVisible : Bool
deriving Repr, DecidableEq

/-- The observable side effects of one qualifying input event. -/
inductive AlertEffect where
  | statusAlarm : AlertEffect
  | overlayShowFor5s : AlertEffect
  | audioPlayFromZero : AlertEffect
deriving Repr, DecidableEq

/-- The handleInput function: fires the alert sequence exactly when the shared
ownerAbsent verdict is set and the tab is visible, else does nothing.  The
alarm markup is modelled by its visible text. -/
def handleInput (s : GateState) : GateState × List AlertEffect :=
  if s.ownerAbsent ∧ s.isTabVisible then
    ({ s with statusText := "警報！ 不正操作検出", overlayVisible := true },
     [AlertEffect.statusAlarm, AlertEffect.overlayShowFor5s, AlertEffect.audioPlayFromZero])
  else (s, [])

/-- Whether a call to handleInput fired the alert sequence. -/
def firesAlert (s : GateState) : Bool :=
  !(handleInput s).2.isEmpty

/-! Start-monitoring click handler (lines 178 to 209 of part_000). -/

/-- The three input event types the handler is registered for. -/
inductive EvType where
  | keydown : EvType
  | mousemove : EvType
  | click : EvType
deriving Repr, DecidableEq

/-- Observable effects of one press of the start button. -/
inductive StartEffect where
  | refusalAlert : StartEffect
  | audioMutedPlayAttempt : StartEffect
  | audioPause : StartEffect
  | statusAppend (text : String) : StartEffect
  | statusSet (text : String) : StartEffect
  | monitorLoopStart : StartEffect
deriving Repr, DecidableEq

/-- Application state touched by the start handler.  The listeners field is the
multiset of document-level registrations of handleInput, one entry per
addEventListener call not yet removed; addEventListener is modelled as a plain
append (a conservative model: the host also deduplicates identical listeners,
so every behaviour of the real registry is a behaviour of this one). -/
structure AppState where
  faceMatcher : Option Matcher
  monitoring : Bool
  statusText : String
  listeners : List EvType
  audioVolume : ℚ

/-- removeEventListener for handleInput on one event type: drops one matching
registration when present. -/
def removeL (t : EvType) (l : List EvType) : List EvType := l.erase t

/-- addEventListener for handleInput on one event type, modelled as append. -/
def addL (t : EvType) (l : List EvType) : List EvType := l ++ [t]

/-- The warning text appended to the status display when the audio unlock
fails (markup elided). -/
def audioBlockedWarning : String :=
  "音声がブロックされています。もう一度「監視開始」を押すか、ページをクリックしてください。"

/-- The start-button click handler.  playOk is the outcome of the awaited
muted play attempt (the external autoplay policy).  With a null matcher the
handler refuses and returns, changing nothing.  Otherwise it runs the
try/catch audio unlock, sets the monitoring flag, resets the status, starts
the loop and re-registers the input handler with a remove-then-add pair per
event type. -/
def startMonitorClick (playOk : Bool) (s : AppState) : AppState × List StartEffect :=
  match s.faceMatcher with
  | none => (s, [StartEffect.refusalAlert])
  | some _ =>
    let unlocked : AppState × List StartEffect :=
      if playOk then
        ({ s with audioVolume := 1, statusText := s.statusText ++ " (音声OK)" },
         [StartEffect.audioMutedPlayAttempt, StartEffect.audioPause,
          StartEffect.statusAppend " (音声OK)"])
      else
        ({ s with audioVolume := 0, statusText := s.statusText ++ audioBlockedWarning },
         [StartEffect.audioMutedPlayAttempt, StartEffect.statusAppend audioBlockedWarning])
    let s1 := unlocked.1
    let s2 : AppState :=
      { s1 with
        monitoring := true,
        statusText := "監視開始！",
        listeners :=
          addL EvType.click (addL EvType.mousemove (addL EvType.keydown
            (removeL EvType.click (removeL EvType.mousemove (removeL EvType.keydown
              s1.listeners))))) }
    (s2, unlocked.2 ++ [StartEffect.statusSet "監視開始！", StartEffect.monitorLoopStart])

/-- A whole sequence of presses of the start button, one playOk outcome per
press. -/
def runStartClicks (oks : List Bool) (s : AppState) : AppState :=
  oks.foldl (fun st ok => (startMonitorClick ok st).1) s

/-! Helper predicates and lemmas about the detection loop. -/

/-- The owner-present condition of the first branch of the forEach body:
distance strictly below 0.58 and an owner label. -/
def ownerQualifies (bm : FaceMatch) : Bool :=
  if bm.distance < (0.58 : ℚ) ∧ (bm.label = "owner_no_mask" ∨ bm.label = "owner_mask")
  then true else false

/-- The condition under which one detection sets intruderDetected: the first
branch did not fire and the label is not unknown. -/
def intruderFlag (bm : FaceMatch) : Bool :=
  if bm.distance < (0.58 : ℚ) ∧ (bm.label = "owner_no_mask" ∨ bm.label = "owner_mask")
  then false
  else if bm.label ≠ "unknown" then true else false

theorem stepDetection_eq (m : Matcher) (acc : Bool × Bool) (det : Descriptor) :
    stepDetection m acc det
      = (acc.1 || ownerQualifies (m.findBestMatch det),
         acc.2 || intruderFlag (m.findBestMatch det)) := by
  unfold stepDetection ownerQualifies intruderFlag
  by_cases h1 : (m.findBestMatch det).distance < (0.58 : ℚ)
      ∧ ((m.findBestMatch det).label = "owner_no_mask" ∨ (m.findBestMatch det).label = "owner_mask")
  · simp [h1]
  · by_cases h2 : (m.findBestMatch det).label = "unknown"
    · simp [h1, h2]
    · simp [h1, h2]

theorem foldl_stepDetection (m : Matcher) (dets : List Descriptor) (acc : Bool × Bool) :
    dets.foldl (fun a d => stepDetection m a d) acc
      = (acc.1 || dets.any (fun d => ownerQualifies (m.findBestMatch d)),
         acc.2 || dets.any (fun d => intruderFlag (m.findBestMatch d))) := by
  induction dets generalizing acc with
  | nil => simp
  | cons d ds ih =>
    have h1 : List.foldl (fun a d => stepDetection m a d) acc (d :: ds)
        = List.foldl (fun a d => stepDetection m a d) (stepDetection m acc d) ds := rfl
    rw [h1, ih, stepDetection_eq]
    simp [List.any_cons, Bool.or_assoc]

theorem detectionVerdicts_some (m : Matcher) (dets : List Descriptor) :
    detectionVerdicts (some m) dets
      = (dets.any (fun d => ownerQualifies (m.findBestMatch d)),
         dets.any (fun d => intruderFlag (m.findBestMatch d))) := by
  have h := foldl_stepDetection m dets (false, false)
  simp only [Bool.false_or] at h
  exact h

theorem detectionVerdicts_none (dets : List Descriptor) :
    detectionVerdicts none dets = (false, false) := by
  unfold detectionVerdicts
  induction dets with
  | nil => rfl
  | cons d ds ih => exact ih

theorem monitorCycle_consec_eq (fm : Option Matcher) (dets : List Descriptor) (s : MonState) :
    (monitorCycle fm true dets s).consecutiveNoFace
      = if dets.length = 0 then s.consecutiveNoFace + 1 else 0 := by
  simp only [monitorCycle, Bool.not_true, Bool.false_eq_true, if_false, NO_FACE_THRESHOLD]
  split_ifs <;> simp_all

theorem monitorCycle_absent_eq (fm : Option Matcher) (dets : List Descriptor) (s : MonState) :
    (monitorCycle fm true dets s).ownerAbsent
      = if NO_FACE_THRESHOLD ≤ (if dets.length = 0 then s.consecutiveNoFace + 1 else 0)
        then true else !(detectionVerdicts fm dets).1 := by
  have hz : detectionVerdicts fm [] = (false, false) := by
    cases fm
    · exact detectionVerdicts_none []
    · rfl
  simp only [monitorCycle, Bool.not_true, Bool.false_eq_true, if_false, NO_FACE_THRESHOLD]
  cases dets with
  | nil => split_ifs <;> simp_all [hz]
  | cons d ds => split_ifs <;> simp_all
/-! Claim theorems. -/

/-- C1: the input-event handler fires the alert sequence (alarm status message,
overlay, audio replay) iff ownerAbsent is true and the tab is visible; in every
combination where either is false, no alert side effect occurs and the gate
state is unchanged. -/
theorem alarm_gate_fires_iff (s : GateState) :
    (firesAlert s = true ↔ s.ownerAbsent = true ∧ s.isTabVisible = true)
    ∧ (firesAlert s = false → handleInput s = (s, [])) := by
  cases hA : s.ownerAbsent <;> cases hV : s.isTabVisible <;>
    simp [firesAlert, handleInput, hA, hV]

/-- C1 witness: with the owner absent but the tab hidden, the handler does
nothing at all. -/
theorem alarm_gate_fires_iff_witness :
    handleInput ⟨true, false, "x", false⟩ = (⟨true, false, "x", false⟩, []) :=
  (alarm_gate_fires_iff ⟨true, false, "x", false⟩).2 rfl

/-- C2: every cycle run while monitoring ends with ownerAbsent forced true when
the updated no-face counter has reached the threshold, and otherwise equal to
the negation of the current frame's aggregate ownerPresent. -/
theorem verdict_priority (fm : Option Matcher) (dets : List Descriptor) (s : MonState) :
    (monitorCycle fm true dets s).ownerAbsent
      = if NO_FACE_THRESHOLD ≤ (monitorCycle fm true dets s).consecutiveNoFace
        then true else !(detectionVerdicts fm dets).1 := by
  rw [monitorCycle_absent_eq, monitorCycle_consec_eq]

/-- C4: a frame containing a detection whose best match carries an owner label
with distance strictly below 0.58 ends the cycle with ownerAbsent false,
whatever the prior state. -/
theorem owner_match_clears_absent (m : Matcher) (dets : List Descriptor) (s : MonState)
    (det : Descriptor) (hmem : det ∈ dets)
    (hdist : (m.findBestMatch det).distance < (0.58 : ℚ))
    (hlab : (m.findBestMatch det).label = "owner_no_mask"
            ∨ (m.findBestMatch det).label = "owner_mask") :
    (monitorCycle (some m) true dets s).ownerAbsent = false := by
  have hne : ¬dets.length = 0 := by
    cases dets with
    | nil => cases hmem
    | cons a l => simp
  have hq : ownerQualifies (m.findBestMatch det) = true := by
    unfold ownerQualifies
    rw [if_pos ⟨hdist, hlab⟩]
  have hpres : (detectionVerdicts (some m) dets).1 = true := by
    rw [detectionVerdicts_some]
    simp only [List.any_eq_true]
    exact ⟨det, hmem, hq⟩
  rw [monitorCycle_absent_eq, if_neg hne, if_neg (by decide : ¬NO_FACE_THRESHOLD ≤ 0), hpres]
  rfl

/-- C4 witness: one detection matching owner_no_mask at distance 0.3 flips the
verdict to present even from an absent prior state with a running counter. -/
theorem owner_match_clears_absent_witness :
    (monitorCycle (some ⟨[("owner_no_mask", [[0]])], 0.58, fun _ => ⟨"owner_no_mask", 0.3⟩⟩)
        true [[(0 : ℚ)]] ⟨3, true, "s"⟩).ownerAbsent = false :=
  owner_match_clears_absent _ _ _ [(0 : ℚ)] (by simp) (by norm_num) (Or.inl rfl)

/-- C5: the no-face counter is reset to 0 by any frame with at least one
detection, owner-matched or not, and increments exactly when the frame has
zero detections. -/
theorem no_face_counter_rule (fm : Option Matcher) (dets : List Descriptor) (s : MonState) :
    (monitorCycle fm true dets s).consecutiveNoFace
      = if dets.length = 0 then s.consecutiveNoFace + 1 else 0 :=
  monitorCycle_consec_eq fm dets s
/-- A matcher whose engine reports the owner label at distance 0.9 for every
query; concrete counterexample input for the intruder-branch claim. -/
def farOwnerMatcher : Matcher :=
  ⟨[("owner_no_mask", [[0]])], 0.58, fun _ => ⟨"owner_no_mask", 0.9⟩⟩

/-- C6 counterexample: a best match carrying the owner_no_mask label but
distance 0.9 (at or above 0.58) does set intruderDetected, and the cycle then
shows the intruder status, contradicting the claim that a best match with an
owner label never sets intruderDetected whatever its distance. -/
theorem owner_far_match_sets_intruder_cex :
    farOwnerMatcher.findBestMatch [(0 : ℚ)] = ⟨"owner_no_mask", 0.9⟩
    ∧ (detectionVerdicts (some farOwnerMatcher) [[(0 : ℚ)]]).2 = true
    ∧ (monitorCycle (some farOwnerMatcher) true [[(0 : ℚ)]] ⟨0, false, ""⟩).statusText
        = "不審者（登録外の顔）検出！" := by
  have hof : ownerQualifies ⟨"owner_no_mask", (0.9 : ℚ)⟩ = false := by
    simp [ownerQualifies, show ¬((0.9 : ℚ) < (0.58 : ℚ)) from by norm_num]
  have hif : intruderFlag ⟨"owner_no_mask", (0.9 : ℚ)⟩ = true := by
    simp [intruderFlag, show ¬((0.9 : ℚ) < (0.58 : ℚ)) from by norm_num]
  have hdv : detectionVerdicts (some farOwnerMatcher) [[(0 : ℚ)]] = (false, true) := by
    rw [detectionVerdicts_some]
    simp [farOwnerMatcher, hof, hif]
  refine ⟨rfl, by rw [hdv], ?_⟩
  simp only [monitorCycle, Bool.not_true, Bool.false_eq_true, if_false]
  simp [hdv, NO_FACE_THRESHOLD]

/-- C6 amended: a detection sets intruderDetected exactly when its best match
label is not unknown and the detection did not qualify as owner-present, that
is, not (owner label and distance strictly below 0.58); an owner label with
distance 0.58 or more therefore does set it. -/
theorem intruder_rule_amended :
    (∀ (m : Matcher) (dets : List Descriptor),
        (detectionVerdicts (some m) dets).2
          = dets.any (fun det => intruderFlag (m.findBestMatch det)))
    ∧ (∀ bm : FaceMatch,
        intruderFlag bm = true
          ↔ bm.label ≠ "unknown"
            ∧ ¬(bm.distance < (0.58 : ℚ)
                ∧ (bm.label = "owner_no_mask" ∨ bm.label = "owner_mask"))) := by
  constructor
  · intro m dets
    rw [detectionVerdicts_some]
  · intro bm
    unfold intruderFlag
    split_ifs with h1 h2
    · simp [h1]
    · simp [h1, h2]
    · simp_all

/-- C6 amended witness: the flag fires on an owner label at distance 0.9. -/
theorem intruder_rule_amended_witness :
    intruderFlag ⟨"owner_no_mask", 0.9⟩ = true :=
  (intruder_rule_amended.2 ⟨"owner_no_mask", 0.9⟩).mpr ⟨by decide, by norm_num⟩

/-- C3 counterexample: loading with the malformed persisted string consisting
of a single opening brace propagates a parse error to the caller instead of
returning the empty store. -/
theorem load_malformed_propagates_cex :
    loadStored (some "\x7b") = Except.error "SyntaxError: unexpected end of JSON input" := rfl

/-- C3 amended: a missing persisted value loads as the empty store, any value
that parses to a falsy result loads as the empty store, but a malformed
(unparseable) value makes the load fail with a propagated parse error. -/
theorem load_default_amended :
    loadStored none = Except.ok emptyStored
    ∧ (∀ raw v, jsonParse raw = Except.ok v → jsFalsy v = true →
        loadStored (some raw) = Except.ok emptyStored)
    ∧ (∀ raw msg, jsonParse raw = Except.error msg →
        loadStored (some raw) = Except.error msg) := by
  refine ⟨rfl, ?_, ?_⟩
  · intro raw v hp hf
    simp only [loadStored, loadStoredRaw, hp]
    simp [loadFromJson, hf]
  · intro raw msg hp
    simp only [loadStored, loadStoredRaw, hp]

/-- C3 amended witness: the literal null loads as the empty store and the
malformed string consisting of an opening bracket propagates its error. -/
theorem load_default_amended_witness :
    loadStored (some "null") = Except.ok emptyStored
    ∧ loadStored (some "[") = Except.error "SyntaxError: unexpected end of JSON input" :=
  ⟨load_default_amended.2.1 "null" Json.null rfl rfl,
   load_default_amended.2.2 "[" "SyntaxError: unexpected end of JSON input" rfl⟩

theorem decodeNums_map (d : List ℚ) : decodeNums (d.map Json.num) = Except.ok d := by
  induction d with
  | nil => rfl
  | cons q qs ih => simp [decodeNums, asNumQ, ih]

theorem decodeEmbList_map (l : List Descriptor) :
    decodeEmbList (l.map (fun d => Json.arr (d.map Json.num))) = Except.ok l := by
  induction l with
  | nil => rfl
  | cons d ds ih => simp [decodeEmbList, decodeEmbedding, asArrJ, decodeNums_map, ih]

/-- C9: the save-then-load round trip is lossless for every store: serializing
the two mask-state sub-sequences and reading them back through the load path
(falsiness default plus field reads) returns the identical store. -/
theorem store_roundtrip (S : StoredFaces) :
    loadFromJson (encodeStored S) = Except.ok S := by
  obtain ⟨nm, wm⟩ := S
  simp [loadFromJson, encodeStored, jsFalsy, decodeStored, getField, List.lookup,
        asArrJ, decodeEmbList_map]
/-- C7: whenever a start press proceeds (matcher non-null), exactly one muted
play attempt happens inside the press; whatever its outcome, monitoring is set
and the loop is started; a failed attempt appends the audio warning to the
status display rather than propagating. -/
theorem audio_unlock_on_start (s : AppState) (m : Matcher) (playOk : Bool)
    (hm : s.faceMatcher = some m) :
    (startMonitorClick playOk s).2.count StartEffect.audioMutedPlayAttempt = 1
    ∧ ((startMonitorClick playOk s).1).monitoring = true
    ∧ StartEffect.monitorLoopStart ∈ (startMonitorClick playOk s).2
    ∧ (playOk = false →
        StartEffect.statusAppend audioBlockedWarning ∈ (startMonitorClick playOk s).2) := by
  cases playOk <;> simp [startMonitorClick, hm, List.count_cons, List.count_nil]

/-- C7 witness: a start press with a registered matcher and a blocked audio
policy still turns monitoring on and reports the failure to the status. -/
theorem audio_unlock_on_start_witness :
    ((startMonitorClick false
        ⟨some ⟨[("owner_no_mask", [[0]])], 0.58, fun _ => ⟨"unknown", 1⟩⟩,
          false, "", [], 1⟩).1).monitoring = true
    ∧ StartEffect.statusAppend audioBlockedWarning
        ∈ (startMonitorClick false
            ⟨some ⟨[("owner_no_mask", [[0]])], 0.58, fun _ => ⟨"unknown", 1⟩⟩,
              false, "", [], 1⟩).2 :=
  ⟨(audio_unlock_on_start _ _ false rfl).2.1,
   (audio_unlock_on_start _ _ false rfl).2.2.2 rfl⟩

/-- C8: a start press with a null matcher is refused: a user-facing refusal is
the only effect, the state (monitoring flag included) is unchanged, the loop is
not started; and the empty store compiles to a null matcher. -/
theorem start_refused_without_matcher (s : AppState) (playOk : Bool)
    (h : s.faceMatcher = none) :
    startMonitorClick playOk s = (s, [StartEffect.refusalAlert])
    ∧ ((startMonitorClick playOk s).1).monitoring = s.monitoring
    ∧ StartEffect.monitorLoopStart ∉ (startMonitorClick playOk s).2
    ∧ (∀ engine, faceMatcherOf emptyStored engine = none) := by
  have h1 : startMonitorClick playOk s = (s, [StartEffect.refusalAlert]) := by
    simp [startMonitorClick, h]
  refine ⟨h1, by rw [h1], by rw [h1]; simp, fun engine => rfl⟩

/-- C8 witness: a concrete stopped state with no matcher stays stopped and
only the refusal happens. -/
theorem start_refused_without_matcher_witness :
    startMonitorClick true ⟨none, false, "", [], 1⟩
      = (⟨none, false, "", [], 1⟩, [StartEffect.refusalAlert]) :=
  (start_refused_without_matcher ⟨none, false, "", [], 1⟩ true rfl).1

theorem startClick_listeners_le (ok : Bool) (s : AppState) (t : EvType)
    (h : s.listeners.count t ≤ 1) :
    ((startMonitorClick ok s).1).listeners.count t ≤ 1 := by
  cases hm : s.faceMatcher with
  | none => simp [startMonitorClick, hm, h]
  | some m =>
    have hl : ((startMonitorClick ok s).1).listeners
        = addL EvType.click (addL EvType.mousemove (addL EvType.keydown
            (removeL EvType.click (removeL EvType.mousemove (removeL EvType.keydown
              s.listeners))))) := by
      cases ok <;> simp [startMonitorClick, hm]
    rw [hl]
    unfold addL removeL
    cases t <;>
      simp only [List.count_append, List.count_singleton, List.count_erase] <;>
      simp <;> omega

/-- C10: across any sequence of start presses, each input event type carries at
most one registration of the input handler (so one physical event invokes the
handler, and hence the alert sequence, at most once), provided the initial
registry already satisfies the bound. -/
theorem listener_registration_at_most_once (oks : List Bool) (s : AppState) (t : EvType)
    (h : s.listeners.count t ≤ 1) :
    (runStartClicks oks s).listeners.count t ≤ 1 := by
  induction oks generalizing s with
  | nil => exact h
  | cons ok rest ih => exact ih _ (startClick_listeners_le ok s t h)

/-- C10 witness: two consecutive successful start presses from a fresh state
leave at most one keydown registration. -/
theorem listener_registration_at_most_once_witness :
    (runStartClicks [true, true]
        ⟨some ⟨[("owner_no_mask", [[0]])], 0.58, fun _ => ⟨"unknown", 1⟩⟩,
          false, "", [], 1⟩).listeners.count EvType.keydown ≤ 1 :=
  listener_registration_at_most_once [true, true] _ EvType.keydown (by simp)
end AutoAlert
